import Mathlib

/-!
Verification of the WHIP/WHEP HTTP front-end of mediamtx
(`internal/core/webrtc_http_server.go`).

The file shallowly embeds the request handlers of `webRTCHTTPServer`:
`onRequest`, `checkAuthOutsideSession`, `onWHIPOptions`, `onWHIPPost`,
`onWHIPPatch`, `onWHIPDelete`, `onPage` and `relativeLocation`, together
with the two routing regular expressions.  External collaborators (the
path manager's `getConfForPath`, the session coordinator `newSession` /
`addSessionCandidates` / `deleteSession`, `generateICEServers` plus the
`LinkHeaderMarshal` serialization, `uuid.Parse`, `ICEFragmentUnmarshal`,
and the two embedded HTML assets) are abstracted into an environment
record `Env`; the handlers are deterministic functions of the environment
and the incoming request.

Go strings are indexed by bytes; the embedding treats them as character
sequences.  The two views agree on ASCII data, which covers every string
literal the handlers compare against.
-/

/-- A URL as the handlers see it: the decoded path (`u.Path`) and the raw
query string (`u.RawQuery`) of Go's `url.URL`. -/
structure URL where
  path : String
  rawQuery : String
deriving DecidableEq

/-- `relativeLocation` from the source: the URL path, with `?` and the raw
query appended when the raw query is nonempty. -/
def relativeLocation (u : URL) : String :=
  if u.rawQuery ≠ "" then u.path ++ "?" ++ u.rawQuery else u.path

/-- The parts of an incoming HTTP request consulted by the handlers.
`contentType` and `accessControlRequestMethod` are `Header.Get` of the
corresponding request header (the empty string when the header is absent).
`basicAuth` is the result of `Request.BasicAuth()`: `none` exactly when
`hasCredentials` is false (header absent or not well-formed Basic auth).
`body` is the result of `io.ReadAll(Request.Body)`: `none` models a read
error, in which case the Go handlers return without writing a response.
`clientIP` is `ctx.ClientIP()` and `remotePort` is the port component of
`Request.RemoteAddr`. -/
structure HttpRequest where
  method : String
  url : URL
  contentType : String
  accessControlRequestMethod : String
  basicAuth : Option (String × String)
  body : Option String
  clientIP : String
  remotePort : String
deriving DecidableEq

/-- `strings.Contains(s, c)` for one character, via the character list
(kernel-reducible, unlike the byte-position-based core primitives). -/
def strContains (s : String) (c : Char) : Bool :=
  s.toList.contains c

/-- `strings.HasPrefix` via the character list. -/
def strStartsWith (s pre : String) : Bool :=
  List.isPrefixOf pre.toList s.toList

/-- `strings.HasSuffix` via the character list. -/
def strEndsWith (s suffix : String) : Bool :=
  List.isSuffixOf suffix.toList s.toList

/-- `len(s)` (in characters; equal to Go's byte length on ASCII data). -/
def strLength (s : String) : Nat :=
  s.toList.length

/-- `s[n:]` — drop the first `n` characters. -/
def strDrop (s : String) (n : Nat) : String :=
  String.mk (s.toList.drop n)

/-- `s[:len(s)-n]` — drop the last `n` characters. -/
def strDropRight (s : String) (n : Nat) : String :=
  String.mk (s.toList.take (s.toList.length - n))

/-- `s[len(s)-1]` — the last character (`'A'` on the empty string, which
the handlers never consult). -/
def strBack (s : String) : Char :=
  s.toList.getLastD 'A'

/-- `net.JoinHostPort`: the host is bracketed when it contains a colon
(a literal IPv6 address). -/
def joinHostPort (host port : String) : String :=
  if strContains host ':' then "[" ++ host ++ "]:" ++ port else host ++ ":" ++ port

/-- A value of the external `github.com/google/uuid` library, identified by
its canonical string form (`UUID.String()`).  Parsing is supplied by the
environment since the library is an external collaborator. -/
structure UUID where
  str : String
deriving DecidableEq

/-- `pathAccessRequest` as filled in by `checkAuthOutsideSession`:
the tuple handed to the path manager's authentication check. -/
structure PathAccessRequest where
  name : String
  query : String
  publish : Bool
  ip : String
  user : String
  pass : String
  proto : String
deriving DecidableEq

/-- Outcome of `pathManager.getConfForPath`, as discriminated by the
handler: success, an `*errAuthentication` (credential failure), or any
other error (no matching path; the handler answers 404). -/
inductive PathConfResult where
  | ok
  | errAuthentication (message : String)
  | errOther (message : String)
deriving DecidableEq

/-- `webRTCNewSessionReq` as filled in by `onWHIPPost`. -/
structure WebRTCNewSessionReq where
  pathName : String
  remoteAddr : String
  query : String
  user : String
  pass : String
  offer : String
  publish : Bool
deriving DecidableEq

/-- Outcome of the session coordinator's `newSession`: an error carrying
the HTTP status code to answer with, or a created session exposing its
`uuid`, its `secret` and the SDP answer. -/
inductive WebRTCNewSessionRes where
  | err (errStatusCode : Nat)
  | ok (uuid : UUID) (secret : UUID) (answer : String)
deriving DecidableEq

/-- Observable side effects of a handler run, in order: calls into the
path manager / session coordinator and the brute-force pause. -/
inductive Effect where
  | authCheck (req : PathAccessRequest)
  | pause (seconds : Nat)
  | newSessionCall (req : WebRTCNewSessionReq)
  | addCandidatesCall (secret : UUID) (candidates : List String)
  | deleteSessionCall (secret : UUID)
deriving DecidableEq

/-- The state of the response writer plus the trace of side effects.
`status` is `none` while `WriteHeader` has not been called (the Go server
then falls back to its own default handling); `delaySec` is the total time
in seconds the handler slept before returning. -/
structure Response where
  status : Option Nat
  headers : List (String × List String)
  body : String
  delaySec : Nat
  effects : List Effect
deriving DecidableEq

/-- Replace the binding of `k` in an association list of headers, or
append it; `Header().Set` semantics. -/
def setAssoc : List (String × List String) → String → List String → List (String × List String)
  | [], k, vs => [(k, vs)]
  | (k0, vs0) :: rest, k, vs =>
    if k0 = k then (k, vs) :: rest else (k0, vs0) :: setAssoc rest k vs

/-- `Header().Set(k, v)`. -/
def Response.setHeader (r : Response) (k v : String) : Response :=
  { r with headers := setAssoc r.headers k [v] }

/-- `Header()[k] = vs` (used for the multi-valued `Link` header). -/
def Response.setHeaderValues (r : Response) (k : String) (vs : List String) : Response :=
  { r with headers := setAssoc r.headers k vs }

/-- Current value of a response header. -/
def Response.getHeader (r : Response) (k : String) : Option (List String) :=
  (r.headers.find? (fun kv => kv.fst == k)).map (fun kv => kv.snd)

/-- `WriteHeader(code)`: the first written status wins. -/
def Response.writeHeader (r : Response) (code : Nat) : Response :=
  match r.status with
  | none => { r with status := some code }
  | some _ => r

/-- `Write(data)`: append to the response body. -/
def Response.write (r : Response) (s : String) : Response :=
  { r with body := r.body ++ s }

/-- `<-time.After(d)`: sleep, recorded in the trace and in `delaySec`. -/
def Response.pause (r : Response) (seconds : Nat) : Response :=
  { r with delaySec := r.delaySec + seconds, effects := r.effects ++ [Effect.pause seconds] }

/-- Record a call into an external collaborator. -/
def Response.record (r : Response) (e : Effect) : Response :=
  { r with effects := r.effects ++ [e] }

/-- The environment: server configuration plus the external collaborators
of the HTTP front-end.  `generateICEServers` already carries the
`LinkHeaderMarshal` serialization of the configured STUN/TURN servers
(`none` models the error case).  `addSessionCandidates` and
`deleteSession` return whether the coordinator reported success.
`publishIndex` and `readIndex` stand for the two embedded HTML assets
(`webrtc_publish_index.html`, `webrtc_read_index.html`), whose contents
are opaque to the handlers. -/
structure Env where
  allowOrigin : String
  getConfForPath : PathAccessRequest → PathConfResult
  generateICEServers : Option (List String)
  newSession : WebRTCNewSessionReq → WebRTCNewSessionRes
  addSessionCandidates : UUID → List String → Bool
  deleteSession : UUID → Bool
  parseUUID : String → Option UUID
  iceFragmentUnmarshal : String → Option (List String)
  publishIndex : String
  readIndex : String

/-- Modelled from the spec: the constant `webrtcPauseAfterAuthError` is
declared elsewhere in the repository (not among the sources at hand).  The
spec fixes it as a delay of at least 1 second introduced on credential
failure to rate-limit brute force; it is modelled here as 2 seconds. -/
def webrtcPauseAfterAuthError : Nat := 2

/-- The `pathAccessRequest` built by `checkAuthOutsideSession`:
`authProtocolWebRTC`, the client IP, the raw query and the Basic auth
credentials (empty strings when absent). -/
def outsideSessionAccessRequest (ctx : HttpRequest) (path : String) (publish : Bool) :
    PathAccessRequest :=
  { name := path
    query := ctx.url.rawQuery
    publish := publish
    ip := ctx.clientIP
    user := (ctx.basicAuth.map Prod.fst).getD ""
    pass := (ctx.basicAuth.map Prod.snd).getD ""
    proto := "webrtc" }

/-- `checkAuthOutsideSession`: run the path manager's authentication
check.  On `*errAuthentication` with no credentials supplied: challenge
with `WWW-Authenticate` and answer 401 immediately.  With credentials
supplied: pause (`webrtcPauseAfterAuthError`) and answer 401 without a
challenge.  On any other error: answer 404.  Returns the updated response
and whether the caller may proceed. -/
def checkAuthOutsideSession (s : Env) (ctx : HttpRequest) (path : String) (publish : Bool)
    (w : Response) : Response × Bool :=
  let hasCredentials := ctx.basicAuth.isSome
  let req := outsideSessionAccessRequest ctx path publish
  let w := w.record (Effect.authCheck req)
  match s.getConfForPath req with
  | PathConfResult.ok => (w, true)
  | PathConfResult.errAuthentication _ =>
    if !hasCredentials then
      ((w.setHeader "WWW-Authenticate" "Basic realm=\"mediamtx\"").writeHeader 401, false)
    else
      ((w.pause webrtcPauseAfterAuthError).writeHeader 401, false)
  | PathConfResult.errOther _ => (w.writeHeader 404, false)

/-- `onWHIPOptions`: auth check, then advertise the allowed methods and
the ICE servers as `Link` headers with status 204 (500 when ICE server
generation fails). -/
def onWHIPOptions (s : Env) (ctx : HttpRequest) (path : String) (publish : Bool)
    (w : Response) : Response :=
  match checkAuthOutsideSession s ctx path publish w with
  | (w, false) => w
  | (w, true) =>
    match s.generateICEServers with
    | none => w.writeHeader 500
    | some servers =>
      let w := w.setHeader "Access-Control-Allow-Methods" "OPTIONS, GET, POST, PATCH, DELETE"
      let w := w.setHeader "Access-Control-Allow-Headers" "Authorization, Content-Type, If-Match"
      let w := w.setHeader "Access-Control-Expose-Headers" "Link"
      let w := w.setHeaderValues "Link" servers
      w.writeHeader 204

/-- The `webRTCNewSessionReq` built by `onWHIPPost`. -/
def whipPostSessionReq (ctx : HttpRequest) (path : String) (publish : Bool) (offer : String) :
    WebRTCNewSessionReq :=
  { pathName := path
    remoteAddr := joinHostPort ctx.clientIP ctx.remotePort
    query := ctx.url.rawQuery
    user := (ctx.basicAuth.map Prod.fst).getD ""
    pass := (ctx.basicAuth.map Prod.snd).getD ""
    offer := offer
    publish := publish }

/-- `onWHIPPost`: reject a wrong `Content-Type` with 400 before creating
anything; otherwise hand the offer to the session coordinator and, on
success, answer 201 with the SDP answer, `ETag: *`, `Accept-Patch`, the
`Link` ICE servers and a `Location` built by appending the session secret
to the request URL path (query string preserved by `relativeLocation`). -/
def onWHIPPost (s : Env) (ctx : HttpRequest) (path : String) (publish : Bool)
    (w : Response) : Response :=
  if ctx.contentType ≠ "application/sdp" then
    w.writeHeader 400
  else
    match ctx.body with
    | none => w
    | some offer =>
      let req := whipPostSessionReq ctx path publish offer
      let w := w.record (Effect.newSessionCall req)
      match s.newSession req with
      | WebRTCNewSessionRes.err code => w.writeHeader code
      | WebRTCNewSessionRes.ok sxUuid sxSecret answer =>
        match s.generateICEServers with
        | none => w.writeHeader 500
        | some servers =>
          let w := w.setHeader "Content-Type" "application/sdp"
          let w := w.setHeader "Access-Control-Expose-Headers" "ETag, Accept-Patch, Link, Location"
          let w := w.setHeader "ETag" "*"
          let w := w.setHeader "ID" sxUuid.str
          let w := w.setHeader "Accept-Patch" "application/trickle-ice-sdpfrag"
          let w := w.setHeaderValues "Link" servers
          let w := w.setHeader "Location"
            (relativeLocation { path := ctx.url.path ++ "/" ++ sxSecret.str
                                rawQuery := ctx.url.rawQuery })
          (w.writeHeader 201).write answer

/-- `onWHIPPatch`: 400 unless the secret parses as a UUID, the
`Content-Type` is `application/trickle-ice-sdpfrag`, the body unmarshals
as an ICE fragment and the coordinator accepts the candidates; 204 when
all of that holds.  A body read error produces no response. -/
def onWHIPPatch (s : Env) (ctx : HttpRequest) (rawSecret : String) (w : Response) : Response :=
  match s.parseUUID rawSecret with
  | none => w.writeHeader 400
  | some secret =>
    if ctx.contentType ≠ "application/trickle-ice-sdpfrag" then
      w.writeHeader 400
    else
      match ctx.body with
      | none => w
      | some byts =>
        match s.iceFragmentUnmarshal byts with
        | none => w.writeHeader 400
        | some candidates =>
          let w := w.record (Effect.addCandidatesCall secret candidates)
          if s.addSessionCandidates secret candidates then
            w.writeHeader 204
          else
            w.writeHeader 400

/-- `onWHIPDelete`: 400 unless the secret parses as a UUID and the
coordinator tears the session down; 200 on success. -/
def onWHIPDelete (s : Env) (_ctx : HttpRequest) (rawSecret : String) (w : Response) : Response :=
  match s.parseUUID rawSecret with
  | none => w.writeHeader 400
  | some secret =>
    let w := w.record (Effect.deleteSessionCall secret)
    if s.deleteSession secret then
      w.writeHeader 200
    else
      w.writeHeader 400

/-- `onPage`: the same auth check as the WHIP endpoints, then serve the
embedded publish or read page with status 200. -/
def onPage (s : Env) (ctx : HttpRequest) (path : String) (publish : Bool)
    (w : Response) : Response :=
  match checkAuthOutsideSession s ctx path publish w with
  | (w, false) => w
  | (w, true) =>
    let w := w.setHeader "Cache-Control" "max-age=3600"
    let w := w.setHeader "Content-Type" "text/html"
    let w := w.writeHeader 200
    if publish then w.write s.publishIndex else w.write s.readIndex

/-- Helper for the anchored regex `^/(.+?)/(whip|whep)$` at a fixed
alternative `kind`: the path matches exactly when it is
`"/" ++ p ++ "/" ++ kind` with `p` nonempty and newline-free (`.` does
not match a newline); the trailing anchor makes laziness irrelevant. -/
def whipWHEPCore (path : String) (kind : String) : Option (String × String) :=
  if strStartsWith path "/" ∧ strEndsWith path ("/" ++ kind) ∧ 7 ≤ strLength path
      ∧ ¬ strContains (strDropRight (strDrop path 1) 5) '\n' then
    some (strDropRight (strDrop path 1) 5, kind)
  else
    none

/-- `reWHIPWHEPNoID = ^/(.+?)/(whip|whep)$`: the two alternatives cannot
both match (the path ends in only one of them). -/
def matchWHIPWHEPNoID (path : String) : Option (String × String) :=
  match whipWHEPCore path "whip" with
  | some r => some r
  | none => whipWHEPCore path "whep"

/-- Scanner for the lazy first group of `^/(.+?)/(whip|whep)/(.+?)$`:
working through the characters after the leading `/`, stop at the first
position where a nonempty group is followed by `/whip/` or `/whep/`.
Returns the group, the matched alternative, and the remainder. -/
def scanWHIPWHEP : List Char → List Char → Option (List Char × String × List Char)
  | _, [] => none
  | acc, c :: cs =>
    if acc ≠ [] ∧ List.isPrefixOf "/whip/".toList (c :: cs) then
      some (acc, "whip", (c :: cs).drop 6)
    else if acc ≠ [] ∧ List.isPrefixOf "/whep/".toList (c :: cs) then
      some (acc, "whep", (c :: cs).drop 6)
    else
      scanWHIPWHEP (acc ++ [c]) cs

/-- `reWHIPWHEPWithID = ^/(.+?)/(whip|whep)/(.+?)$`.  A newline anywhere
defeats every decomposition (each character belongs to one of the three
`.`-groups), so the match fails outright.  Otherwise the lazy first group
selects the earliest separator; a later separator could only rescue an
empty third group if it occurred further right, which is impossible when
the first separator already touches the end of the path. -/
def matchWHIPWHEPWithID (path : String) : Option (String × String × String) :=
  if strContains path '\n' then
    none
  else
    match path.toList with
    | '/' :: rest =>
      match scanWHIPWHEP [] rest with
      | some (m1, kind, m3) =>
        if m3 ≠ [] then some (String.mk m1, kind, String.mk m3) else none
      | none => none
    | _ => none

/-- `onRequest`: CORS headers on every response; preflight; then the two
WHIP/WHEP routing regexes; then the static pages with the
trailing-slash redirect. -/
def onRequest (s : Env) (ctx : HttpRequest) : Response :=
  let w : Response := { status := none, headers := [], body := "", delaySec := 0, effects := [] }
  let w := w.setHeader "Access-Control-Allow-Origin" s.allowOrigin
  let w := w.setHeader "Access-Control-Allow-Credentials" "true"
  if ctx.method = "OPTIONS" ∧ ctx.accessControlRequestMethod ≠ "" then
    ((w.setHeader "Access-Control-Allow-Methods" "OPTIONS, GET, POST, PATCH, DELETE").setHeader
        "Access-Control-Allow-Headers" "Authorization, Content-Type, If-Match").writeHeader 204
  else
    match matchWHIPWHEPNoID ctx.url.path with
    | some (m1, m2) =>
      if ctx.method = "OPTIONS" then
        onWHIPOptions s ctx m1 (m2 == "whip") w
      else if ctx.method = "POST" then
        onWHIPPost s ctx m1 (m2 == "whip") w
      else if ctx.method = "GET" ∨ ctx.method = "HEAD" ∨ ctx.method = "PUT" then
        w.writeHeader 405
      else
        w
    | none =>
      match matchWHIPWHEPWithID ctx.url.path with
      | some (_, _, m3) =>
        if ctx.method = "PATCH" then
          onWHIPPatch s ctx m3 w
        else if ctx.method = "DELETE" then
          onWHIPDelete s ctx m3 w
        else
          w
      | none =>
        if ctx.method = "GET" then
          if ctx.url.path = "/favicon.ico" then
            w
          else if 3 ≤ strLength ctx.url.path then
            if strEndsWith ctx.url.path "/publish" then
              onPage s ctx (strDropRight (strDrop ctx.url.path 1) 8) true w
            else if strBack ctx.url.path ≠ '/' then
              (w.setHeader "Location"
                  (relativeLocation { path := ctx.url.path ++ "/"
                                      rawQuery := ctx.url.rawQuery })).writeHeader 301
            else
              onPage s ctx (strDropRight (strDrop ctx.url.path 1) 1) false w
          else
            w
        else
          w

/-! ### Concrete instances used by witnesses and counterexamples -/

/-- A fixed secret UUID (canonical string form), for concrete runs. -/
def demoSecret : UUID := { str := "22222222-2222-2222-2222-222222222222" }

/-- A fixed session UUID, for concrete runs. -/
def demoUUID : UUID := { str := "33333333-3333-3333-3333-333333333333" }

/-- An environment in which every external collaborator succeeds. -/
def demoEnv : Env :=
  { allowOrigin := "https://example.com"
    getConfForPath := fun _ => PathConfResult.ok
    generateICEServers := some ["<stun:stun.example.com>; rel=\"ice-server\""]
    newSession := fun _ => WebRTCNewSessionRes.ok demoUUID demoSecret "v=0 demo-answer"
    addSessionCandidates := fun _ _ => true
    deleteSession := fun _ => true
    parseUUID := fun str => if str = demoSecret.str then some demoSecret else none
    iceFragmentUnmarshal := fun b => if b = "demo-fragment" then some ["candidate 1 UDP"] else none
    publishIndex := "demo publish page"
    readIndex := "demo read page" }

/-- The same environment with authentication always failing. -/
def demoEnvAuthErr : Env :=
  { demoEnv with
    getConfForPath := fun _ => PathConfResult.errAuthentication "authentication failed" }

/-- A request template; witnesses override the relevant fields. -/
def demoReq : HttpRequest :=
  { method := "GET"
    url := { path := "/", rawQuery := "" }
    contentType := ""
    accessControlRequestMethod := ""
    basicAuth := none
    body := none
    clientIP := "198.51.100.7"
    remotePort := "40404" }

/-- A CORS preflight request: OPTIONS with `Access-Control-Request-Method`. -/
def demoReqPreflight : HttpRequest :=
  { demoReq with
    method := "OPTIONS"
    url := { path := "/cam1/whip", rawQuery := "" }
    accessControlRequestMethod := "POST" }

/-- OPTIONS on a WHIP endpoint without credentials. -/
def demoReqOptionsNoCreds : HttpRequest :=
  { demoReq with
    method := "OPTIONS"
    url := { path := "/cam1/whip", rawQuery := "" } }

/-- OPTIONS on a WHIP endpoint with (wrong) credentials. -/
def demoReqOptionsCreds : HttpRequest :=
  { demoReq with
    method := "OPTIONS"
    url := { path := "/cam1/whip", rawQuery := "" }
    basicAuth := some ("user", "wrongpass") }

/-- OPTIONS on a WHEP endpoint, no credentials. -/
def demoReqOptionsWhep : HttpRequest :=
  { demoReq with
    method := "OPTIONS"
    url := { path := "/cam1/whep", rawQuery := "" } }

/-- POST of an SDP offer to a WHIP endpoint, with a query string. -/
def demoReqPost : HttpRequest :=
  { demoReq with
    method := "POST"
    url := { path := "/cam1/whip", rawQuery := "user=x" }
    contentType := "application/sdp"
    body := some "v=0 demo-offer" }

/-- PATCH of an ICE fragment to a WHIP session URL. -/
def demoReqPatch : HttpRequest :=
  { demoReq with
    method := "PATCH"
    url := { path := "/cam1/whip/22222222-2222-2222-2222-222222222222", rawQuery := "" }
    contentType := "application/trickle-ice-sdpfrag"
    body := some "demo-fragment" }

/-- DELETE of a WHEP session URL. -/
def demoReqDelete : HttpRequest :=
  { demoReq with
    method := "DELETE"
    url := { path := "/cam1/whep/22222222-2222-2222-2222-222222222222", rawQuery := "" } }

/-- GET on a WHIP endpoint. -/
def demoReqGetWhip : HttpRequest :=
  { demoReq with
    method := "GET"
    url := { path := "/cam1/whip", rawQuery := "" } }

/-- GET on a static path without a trailing slash, with a query string. -/
def demoReqGetStatic : HttpRequest :=
  { demoReq with
    method := "GET"
    url := { path := "/static/page", rawQuery := "x=1" } }

/-- GET of the browser publish page. -/
def demoReqGetPublish : HttpRequest :=
  { demoReq with
    method := "GET"
    url := { path := "/cam1/publish", rawQuery := "" } }

/-- The conditions under which `onWHIPPatch` answers 204: the secret
parses as a UUID, the `Content-Type` is right, the body unmarshals into
ICE candidates, and the coordinator accepts them. -/
def patchAccepted (s : Env) (ctx : HttpRequest) (sec b : String) : Prop :=
  ∃ secret candidates,
    s.parseUUID sec = some secret ∧
    ctx.contentType = "application/trickle-ice-sdpfrag" ∧
    s.iceFragmentUnmarshal b = some candidates ∧
    s.addSessionCandidates secret candidates = true

/-- The auth-gated outcomes of a page request for path name `name`:
success serves the page with 200 after exactly one auth check; an
authentication error answers 401 (challenge header exactly when
credentials were missing); any other error answers 404; no page body is
written on failure. -/
def pageGate (s : Env) (ctx : HttpRequest) (name : String) (publish : Bool) : Prop :=
  (s.getConfForPath (outsideSessionAccessRequest ctx name publish) = PathConfResult.ok →
    (onRequest s ctx).status = some 200 ∧
    (onRequest s ctx).getHeader "Content-Type" = some ["text/html"] ∧
    (onRequest s ctx).getHeader "Cache-Control" = some ["max-age=3600"] ∧
    (onRequest s ctx).body = (if publish then s.publishIndex else s.readIndex) ∧
    (onRequest s ctx).effects =
      [Effect.authCheck (outsideSessionAccessRequest ctx name publish)]) ∧
  (∀ msg, s.getConfForPath (outsideSessionAccessRequest ctx name publish) =
      PathConfResult.errAuthentication msg →
    (onRequest s ctx).status = some 401 ∧
    (onRequest s ctx).body = "" ∧
    (ctx.basicAuth = none →
      (onRequest s ctx).getHeader "WWW-Authenticate" = some ["Basic realm=\"mediamtx\""]) ∧
    (ctx.basicAuth ≠ none →
      (onRequest s ctx).getHeader "WWW-Authenticate" = none)) ∧
  (∀ msg, s.getConfForPath (outsideSessionAccessRequest ctx name publish) =
      PathConfResult.errOther msg →
    (onRequest s ctx).status = some 404 ∧ (onRequest s ctx).body = "")

/-! ### Basic algebra of the response writer -/

theorem getHeader_setAssoc (hs : List (String × List String)) (k : String) (vs : List String)
    (k0 : String) :
    ((setAssoc hs k vs).find? (fun kv => kv.fst == k0)).map (fun kv => kv.snd) =
      if k = k0 then some vs
      else (hs.find? (fun kv => kv.fst == k0)).map (fun kv => kv.snd) := by
  induction hs with
  | nil =>
    by_cases h : k = k0
    · subst h
      simp [setAssoc, List.find?]
    · simp [setAssoc, List.find?, beq_eq_false_iff_ne.mpr h, h]
  | cons kv rest ih =>
    obtain ⟨k1, vs1⟩ := kv
    by_cases h1 : k1 = k
    · subst h1
      by_cases h : k1 = k0
      · subst h
        simp [setAssoc, List.find?]
      · simp [setAssoc, List.find?, beq_eq_false_iff_ne.mpr h, h]
    · by_cases h : k1 = k0
      · subst h
        have hk : ¬ k = k1 := fun hc => h1 hc.symm
        simp [setAssoc, List.find?, h1, hk]
      · simp [setAssoc, List.find?, h1, h, beq_eq_false_iff_ne.mpr h, ih]

@[simp] theorem Response.getHeader_setHeader (r : Response) (k v k0 : String) :
    (r.setHeader k v).getHeader k0 = if k = k0 then some [v] else r.getHeader k0 :=
  getHeader_setAssoc r.headers k [v] k0

@[simp] theorem Response.getHeader_setHeaderValues (r : Response) (k : String)
    (vs : List String) (k0 : String) :
    (r.setHeaderValues k vs).getHeader k0 = if k = k0 then some vs else r.getHeader k0 :=
  getHeader_setAssoc r.headers k vs k0

@[simp] theorem Response.getHeader_writeHeader (r : Response) (c : Nat) (k0 : String) :
    (r.writeHeader c).getHeader k0 = r.getHeader k0 := by
  unfold Response.writeHeader
  cases r.status <;> rfl

@[simp] theorem Response.getHeader_write (r : Response) (s : String) (k0 : String) :
    (r.write s).getHeader k0 = r.getHeader k0 := rfl

@[simp] theorem Response.getHeader_pause (r : Response) (n : Nat) (k0 : String) :
    (r.pause n).getHeader k0 = r.getHeader k0 := rfl

@[simp] theorem Response.getHeader_record (r : Response) (e : Effect) (k0 : String) :
    (r.record e).getHeader k0 = r.getHeader k0 := rfl

@[simp] theorem Response.getHeader_init (k : String) :
    Response.getHeader
      { status := none, headers := [], body := "", delaySec := 0, effects := [] } k = none := rfl

@[simp] theorem Response.status_setHeader (r : Response) (k v : String) :
    (r.setHeader k v).status = r.status := rfl

@[simp] theorem Response.status_setHeaderValues (r : Response) (k : String) (vs : List String) :
    (r.setHeaderValues k vs).status = r.status := rfl

@[simp] theorem Response.status_write (r : Response) (s : String) :
    (r.write s).status = r.status := rfl

@[simp] theorem Response.status_pause (r : Response) (n : Nat) :
    (r.pause n).status = r.status := rfl

@[simp] theorem Response.status_record (r : Response) (e : Effect) :
    (r.record e).status = r.status := rfl

@[simp] theorem Response.status_writeHeader (r : Response) (c : Nat) :
    (r.writeHeader c).status = some (r.status.getD c) := by
  unfold Response.writeHeader
  cases h : r.status <;> simp [h]

@[simp] theorem Response.body_setHeader (r : Response) (k v : String) :
    (r.setHeader k v).body = r.body := rfl

@[simp] theorem Response.body_setHeaderValues (r : Response) (k : String) (vs : List String) :
    (r.setHeaderValues k vs).body = r.body := rfl

@[simp] theorem Response.body_writeHeader (r : Response) (c : Nat) :
    (r.writeHeader c).body = r.body := by
  unfold Response.writeHeader
  cases r.status <;> rfl

@[simp] theorem Response.body_pause (r : Response) (n : Nat) :
    (r.pause n).body = r.body := rfl

@[simp] theorem Response.body_record (r : Response) (e : Effect) :
    (r.record e).body = r.body := rfl

@[simp] theorem Response.body_write (r : Response) (s : String) :
    (r.write s).body = r.body ++ s := rfl

@[simp] theorem Response.delaySec_setHeader (r : Response) (k v : String) :
    (r.setHeader k v).delaySec = r.delaySec := rfl

@[simp] theorem Response.delaySec_setHeaderValues (r : Response) (k : String) (vs : List String) :
    (r.setHeaderValues k vs).delaySec = r.delaySec := rfl

@[simp] theorem Response.delaySec_writeHeader (r : Response) (c : Nat) :
    (r.writeHeader c).delaySec = r.delaySec := by
  unfold Response.writeHeader
  cases r.status <;> rfl

@[simp] theorem Response.delaySec_write (r : Response) (s : String) :
    (r.write s).delaySec = r.delaySec := rfl

@[simp] theorem Response.delaySec_pause (r : Response) (n : Nat) :
    (r.pause n).delaySec = r.delaySec + n := rfl

@[simp] theorem Response.delaySec_record (r : Response) (e : Effect) :
    (r.record e).delaySec = r.delaySec := rfl

@[simp] theorem Response.effects_setHeader (r : Response) (k v : String) :
    (r.setHeader k v).effects = r.effects := rfl

@[simp] theorem Response.effects_setHeaderValues (r : Response) (k : String) (vs : List String) :
    (r.setHeaderValues k vs).effects = r.effects := rfl

@[simp] theorem Response.effects_writeHeader (r : Response) (c : Nat) :
    (r.writeHeader c).effects = r.effects := by
  unfold Response.writeHeader
  cases r.status <;> rfl

@[simp] theorem Response.effects_write (r : Response) (s : String) :
    (r.write s).effects = r.effects := rfl

@[simp] theorem Response.effects_pause (r : Response) (n : Nat) :
    (r.pause n).effects = r.effects ++ [Effect.pause n] := rfl

@[simp] theorem Response.effects_record (r : Response) (e : Effect) :
    (r.record e).effects = r.effects ++ [e] := rfl

/-! ### Characterization of the shared auth check -/

theorem checkAuth_ok (s : Env) (ctx : HttpRequest) (p : String) (pub : Bool) (w : Response)
    (h : s.getConfForPath (outsideSessionAccessRequest ctx p pub) = PathConfResult.ok) :
    checkAuthOutsideSession s ctx p pub w =
      (w.record (Effect.authCheck (outsideSessionAccessRequest ctx p pub)), true) := by
  simp [checkAuthOutsideSession, h]

theorem checkAuth_errAuth_noCreds (s : Env) (ctx : HttpRequest) (p : String) (pub : Bool)
    (w : Response) (msg : String) (hb : ctx.basicAuth = none)
    (h : s.getConfForPath (outsideSessionAccessRequest ctx p pub) =
      PathConfResult.errAuthentication msg) :
    checkAuthOutsideSession s ctx p pub w =
      (((w.record (Effect.authCheck (outsideSessionAccessRequest ctx p pub))).setHeader
          "WWW-Authenticate" "Basic realm=\"mediamtx\"").writeHeader 401, false) := by
  simp [checkAuthOutsideSession, h, hb]

theorem checkAuth_errAuth_creds (s : Env) (ctx : HttpRequest) (p : String) (pub : Bool)
    (w : Response) (msg : String) (cred : String × String) (hb : ctx.basicAuth = some cred)
    (h : s.getConfForPath (outsideSessionAccessRequest ctx p pub) =
      PathConfResult.errAuthentication msg) :
    checkAuthOutsideSession s ctx p pub w =
      (((w.record (Effect.authCheck (outsideSessionAccessRequest ctx p pub))).pause
          webrtcPauseAfterAuthError).writeHeader 401, false) := by
  simp [checkAuthOutsideSession, h, hb]

theorem checkAuth_errOther (s : Env) (ctx : HttpRequest) (p : String) (pub : Bool)
    (w : Response) (msg : String)
    (h : s.getConfForPath (outsideSessionAccessRequest ctx p pub) =
      PathConfResult.errOther msg) :
    checkAuthOutsideSession s ctx p pub w =
      ((w.record (Effect.authCheck (outsideSessionAccessRequest ctx p pub))).writeHeader 404,
        false) := by
  simp [checkAuthOutsideSession, h]

/-! ### Header preservation through the handlers -/

theorem getHeader_checkAuth (s : Env) (ctx : HttpRequest) (p : String) (pub : Bool)
    (w : Response) (k : String) (h1 : k ≠ "WWW-Authenticate") :
    ((checkAuthOutsideSession s ctx p pub w).1).getHeader k = w.getHeader k := by
  simp only [checkAuthOutsideSession]
  cases hg : s.getConfForPath (outsideSessionAccessRequest ctx p pub)
  · simp
  · by_cases hb : ctx.basicAuth.isSome <;> simp [hb, Ne.symm h1]
  · simp

theorem authCheck_mem_checkAuth (s : Env) (ctx : HttpRequest) (p : String) (pub : Bool)
    (w : Response) :
    Effect.authCheck (outsideSessionAccessRequest ctx p pub) ∈
      ((checkAuthOutsideSession s ctx p pub w).1).effects := by
  simp only [checkAuthOutsideSession]
  cases hg : s.getConfForPath (outsideSessionAccessRequest ctx p pub)
  · simp
  · by_cases hb : ctx.basicAuth.isSome <;> simp [hb]
  · simp

theorem authCheck_mem_onWHIPOptions (s : Env) (ctx : HttpRequest) (p : String) (pub : Bool)
    (w : Response) :
    Effect.authCheck (outsideSessionAccessRequest ctx p pub) ∈
      (onWHIPOptions s ctx p pub w).effects := by
  have hmem := authCheck_mem_checkAuth s ctx p pub w
  simp only [onWHIPOptions]
  rcases hch : checkAuthOutsideSession s ctx p pub w with ⟨w', ok⟩
  rw [hch] at hmem
  cases ok
  · simpa using hmem
  · cases hg : s.generateICEServers <;> simpa [hg] using hmem

theorem getHeader_onWHIPOptions (s : Env) (ctx : HttpRequest) (p : String) (pub : Bool)
    (w : Response) (k : String) (h1 : k ≠ "WWW-Authenticate")
    (h2 : k ≠ "Access-Control-Allow-Methods") (h3 : k ≠ "Access-Control-Allow-Headers")
    (h4 : k ≠ "Access-Control-Expose-Headers") (h5 : k ≠ "Link") :
    (onWHIPOptions s ctx p pub w).getHeader k = w.getHeader k := by
  have hca := getHeader_checkAuth s ctx p pub w k h1
  simp only [onWHIPOptions]
  rcases hch : checkAuthOutsideSession s ctx p pub w with ⟨w', ok⟩
  rw [hch] at hca
  cases ok
  · simpa using hca
  · cases hg : s.generateICEServers <;>
      simp [hg, Ne.symm h2, Ne.symm h3, Ne.symm h4, Ne.symm h5, hca]

theorem getHeader_onWHIPPost (s : Env) (ctx : HttpRequest) (p : String) (pub : Bool)
    (w : Response) (k : String) (h1 : k ≠ "Content-Type")
    (h2 : k ≠ "Access-Control-Expose-Headers") (h3 : k ≠ "ETag") (h4 : k ≠ "ID")
    (h5 : k ≠ "Accept-Patch") (h6 : k ≠ "Link") (h7 : k ≠ "Location") :
    (onWHIPPost s ctx p pub w).getHeader k = w.getHeader k := by
  unfold onWHIPPost
  split
  · simp
  · cases hb : ctx.body with
    | none => simp
    | some offer =>
      cases hn : s.newSession (whipPostSessionReq ctx p pub offer) <;>
        cases hg : s.generateICEServers <;>
          simp [hb, hn, hg, Ne.symm h1, Ne.symm h2, Ne.symm h3, Ne.symm h4, Ne.symm h5,
            Ne.symm h6, Ne.symm h7]

theorem getHeader_onWHIPPatch (s : Env) (ctx : HttpRequest) (sec : String)
    (w : Response) (k : String) :
    (onWHIPPatch s ctx sec w).getHeader k = w.getHeader k := by
  unfold onWHIPPatch
  repeat' split
  all_goals simp

theorem getHeader_onWHIPDelete (s : Env) (ctx : HttpRequest) (sec : String)
    (w : Response) (k : String) :
    (onWHIPDelete s ctx sec w).getHeader k = w.getHeader k := by
  unfold onWHIPDelete
  repeat' split
  all_goals simp

theorem getHeader_onPage (s : Env) (ctx : HttpRequest) (p : String) (pub : Bool)
    (w : Response) (k : String) (h1 : k ≠ "WWW-Authenticate")
    (h2 : k ≠ "Cache-Control") (h3 : k ≠ "Content-Type") :
    (onPage s ctx p pub w).getHeader k = w.getHeader k := by
  have hca := getHeader_checkAuth s ctx p pub w k h1
  simp only [onPage]
  rcases hch : checkAuthOutsideSession s ctx p pub w with ⟨w', ok⟩
  rw [hch] at hca
  cases ok
  · simpa using hca
  · cases pub <;> simp [Ne.symm h2, Ne.symm h3, hca]

/-! ### Claims -/

/-- Claim C8: every HTTP response emitted by the WebRTC HTTP server — for
any method, path, and outcome — carries `Access-Control-Allow-Origin` set
to the configured allow-origin value and
`Access-Control-Allow-Credentials: true`. -/
theorem all_responses_cors_headers (s : Env) (ctx : HttpRequest) :
    (onRequest s ctx).getHeader "Access-Control-Allow-Origin" = some [s.allowOrigin] ∧
    (onRequest s ctx).getHeader "Access-Control-Allow-Credentials" = some ["true"] := by
  unfold onRequest
  repeat' split
  all_goals
    simp [getHeader_onWHIPOptions, getHeader_onWHIPPost, getHeader_onWHIPPatch,
      getHeader_onWHIPDelete, getHeader_onPage]

/-- Claim C7: every GET, HEAD, or PUT request to a WHIP/WHEP endpoint
returns status 405 Method Not Allowed. -/
theorem whip_endpoint_get_head_put_405 (s : Env) (ctx : HttpRequest) (p kind : String)
    (hm : matchWHIPWHEPNoID ctx.url.path = some (p, kind))
    (hmethod : ctx.method = "GET" ∨ ctx.method = "HEAD" ∨ ctx.method = "PUT") :
    (onRequest s ctx).status = some 405 := by
  rcases hmethod with h | h | h <;> simp [onRequest, h, hm]

/-- Claim C7, witness: a concrete GET on `/cam1/whip` is answered 405. -/
theorem whip_endpoint_get_head_put_405_witness :
    matchWHIPWHEPNoID demoReqGetWhip.url.path = some ("cam1", "whip") ∧
    (onRequest demoEnv demoReqGetWhip).status = some 405 :=
  ⟨by decide,
    whip_endpoint_get_head_put_405 demoEnv demoReqGetWhip "cam1" "whip" (by decide)
      (Or.inl rfl)⟩

/-- Claim C4: an OPTIONS request carrying `Access-Control-Request-Method`
is answered as a CORS preflight — 204 with the allowed methods and
headers — without any WHIP/WHEP processing (empty effect trace, hence no
authentication, and no `Link` header); an OPTIONS request without that
header that reaches a WHIP endpoint does run the authentication check, so
the two behaviours are distinguished exactly by the header's presence. -/
theorem cors_preflight_shortcut (s : Env) (ctx : HttpRequest)
    (hmethod : ctx.method = "OPTIONS") :
    (ctx.accessControlRequestMethod ≠ "" →
      (onRequest s ctx).status = some 204 ∧
      (onRequest s ctx).getHeader "Access-Control-Allow-Methods" =
        some ["OPTIONS, GET, POST, PATCH, DELETE"] ∧
      (onRequest s ctx).getHeader "Access-Control-Allow-Headers" =
        some ["Authorization, Content-Type, If-Match"] ∧
      (onRequest s ctx).getHeader "Link" = none ∧
      (onRequest s ctx).effects = []) ∧
    (∀ p kind, ctx.accessControlRequestMethod = "" →
      matchWHIPWHEPNoID ctx.url.path = some (p, kind) →
      Effect.authCheck (outsideSessionAccessRequest ctx p (kind == "whip")) ∈
        (onRequest s ctx).effects) := by
  constructor
  · intro h
    simp [onRequest, hmethod, h]
  · intro p kind h hmatch
    have hred : onRequest s ctx =
        onWHIPOptions s ctx p (kind == "whip")
          ((Response.setHeader
              { status := none, headers := [], body := "", delaySec := 0, effects := [] }
              "Access-Control-Allow-Origin" s.allowOrigin).setHeader
            "Access-Control-Allow-Credentials" "true") := by
      simp [onRequest, hmethod, h, hmatch]
    rw [hred]
    exact authCheck_mem_onWHIPOptions s ctx p (kind == "whip") _

/-- Claim C4, witness: a concrete preflight request is answered 204 with
the allowed methods/headers, no `Link` header, and no side effects. -/
theorem cors_preflight_shortcut_witness :
    demoReqPreflight.accessControlRequestMethod ≠ "" ∧
    ((onRequest demoEnv demoReqPreflight).status = some 204 ∧
      (onRequest demoEnv demoReqPreflight).getHeader "Access-Control-Allow-Methods" =
        some ["OPTIONS, GET, POST, PATCH, DELETE"] ∧
      (onRequest demoEnv demoReqPreflight).getHeader "Access-Control-Allow-Headers" =
        some ["Authorization, Content-Type, If-Match"] ∧
      (onRequest demoEnv demoReqPreflight).getHeader "Link" = none ∧
      (onRequest demoEnv demoReqPreflight).effects = []) :=
  ⟨by decide, (cors_preflight_shortcut demoEnv demoReqPreflight rfl).1 (by decide)⟩

/-- Claim C5: an OPTIONS request to a WHIP/WHEP endpoint (no
`Access-Control-Request-Method` header) that passes authentication is
answered 204 with `Access-Control-Allow-Methods: OPTIONS, GET, POST,
PATCH, DELETE` and `Link` header entries advertising the configured
STUN/TURN servers. -/
theorem whip_options_ice_servers (s : Env) (ctx : HttpRequest) (p kind : String)
    (links : List String)
    (hmethod : ctx.method = "OPTIONS") (hpre : ctx.accessControlRequestMethod = "")
    (hm : matchWHIPWHEPNoID ctx.url.path = some (p, kind))
    (hauth : s.getConfForPath (outsideSessionAccessRequest ctx p (kind == "whip")) =
      PathConfResult.ok)
    (hg : s.generateICEServers = some links) :
    (onRequest s ctx).status = some 204 ∧
    (onRequest s ctx).getHeader "Access-Control-Allow-Methods" =
      some ["OPTIONS, GET, POST, PATCH, DELETE"] ∧
    (onRequest s ctx).getHeader "Link" = some links := by
  simp [onRequest, hmethod, hpre, hm, onWHIPOptions, checkAuth_ok, hauth, hg]

/-- Claim C5, witness: a concrete authenticated OPTIONS on `/cam1/whep`
yields 204 with the allowed methods and the configured ICE servers. -/
theorem whip_options_ice_servers_witness :
    demoEnv.getConfForPath
        (outsideSessionAccessRequest demoReqOptionsWhep "cam1" ("whep" == "whip")) =
      PathConfResult.ok ∧
    demoEnv.generateICEServers = some ["<stun:stun.example.com>; rel=\"ice-server\""] ∧
    ((onRequest demoEnv demoReqOptionsWhep).status = some 204 ∧
      (onRequest demoEnv demoReqOptionsWhep).getHeader "Access-Control-Allow-Methods" =
        some ["OPTIONS, GET, POST, PATCH, DELETE"] ∧
      (onRequest demoEnv demoReqOptionsWhep).getHeader "Link" =
        some ["<stun:stun.example.com>; rel=\"ice-server\""]) :=
  ⟨rfl, rfl,
    whip_options_ice_servers demoEnv demoReqOptionsWhep "cam1" "whep"
      ["<stun:stun.example.com>; rel=\"ice-server\""] rfl rfl (by decide) rfl rfl⟩

/-- Claim C1, counterexample: an OPTIONS request to `/cam1/whip` whose
authentication fails with *missing* credentials is answered 401 with the
`WWW-Authenticate` challenge but with **no** delay — the brute-force pause
is applied only when credentials were supplied, so "a credential failure
causes a fixed delay of at least 1 second before returning 401" is false
as stated. -/
theorem whip_auth_failure_delay_cex :
    (onRequest demoEnvAuthErr demoReqOptionsNoCreds).status = some 401 ∧
    (onRequest demoEnvAuthErr demoReqOptionsNoCreds).delaySec = 0 ∧
    (onRequest demoEnvAuthErr demoReqOptionsNoCreds).getHeader "WWW-Authenticate" =
      some ["Basic realm=\"mediamtx\""] := by
  decide

/-- Claim C1 (amended): on a WHIP/WHEP request whose authentication fails,
the response is 401 with an empty body in both cases; when credentials
were supplied the server first pauses `webrtcPauseAfterAuthError` (≥ 1 s)
and sets no `WWW-Authenticate` header; when credentials were missing it
answers immediately (no delay) with the challenge
`WWW-Authenticate: Basic realm="mediamtx"`. -/
theorem whip_auth_failure_delay (s : Env) (ctx : HttpRequest) (p kind msg : String)
    (hmethod : ctx.method = "OPTIONS") (hpre : ctx.accessControlRequestMethod = "")
    (hm : matchWHIPWHEPNoID ctx.url.path = some (p, kind))
    (hauth : s.getConfForPath (outsideSessionAccessRequest ctx p (kind == "whip")) =
      PathConfResult.errAuthentication msg) :
    (onRequest s ctx).status = some 401 ∧
    (onRequest s ctx).body = "" ∧
    (ctx.basicAuth = none →
      (onRequest s ctx).getHeader "WWW-Authenticate" = some ["Basic realm=\"mediamtx\""] ∧
      (onRequest s ctx).delaySec = 0) ∧
    (∀ cred, ctx.basicAuth = some cred →
      (onRequest s ctx).getHeader "WWW-Authenticate" = none ∧
      (onRequest s ctx).delaySec = webrtcPauseAfterAuthError ∧
      1 ≤ webrtcPauseAfterAuthError) := by
  cases hb : ctx.basicAuth with
  | none =>
    have hck := fun w => checkAuth_errAuth_noCreds s ctx p (kind == "whip") w msg hb hauth
    simp [onRequest, hmethod, hpre, hm, onWHIPOptions, hck, hb]
  | some cred =>
    have hck := fun w => checkAuth_errAuth_creds s ctx p (kind == "whip") w msg cred hb hauth
    simp [onRequest, hmethod, hpre, hm, onWHIPOptions, hck, hb, webrtcPauseAfterAuthError]

/-- Claim C1 (amended), witness: a concrete OPTIONS on `/cam1/whip` with
wrong credentials is answered 401 with no challenge after the full pause. -/
theorem whip_auth_failure_delay_witness :
    demoEnvAuthErr.getConfForPath
        (outsideSessionAccessRequest demoReqOptionsCreds "cam1" ("whip" == "whip")) =
      PathConfResult.errAuthentication "authentication failed" ∧
    ((onRequest demoEnvAuthErr demoReqOptionsCreds).status = some 401 ∧
      (onRequest demoEnvAuthErr demoReqOptionsCreds).getHeader "WWW-Authenticate" = none ∧
      (onRequest demoEnvAuthErr demoReqOptionsCreds).delaySec = webrtcPauseAfterAuthError ∧
      1 ≤ webrtcPauseAfterAuthError) := by
  refine ⟨rfl, ?_⟩
  have h := whip_auth_failure_delay demoEnvAuthErr demoReqOptionsCreds "cam1" "whip"
    "authentication failed" rfl rfl (by decide) rfl
  exact ⟨h.1, (h.2.2.2 ("user", "wrongpass") rfl).1, (h.2.2.2 ("user", "wrongpass") rfl).2.1,
    (h.2.2.2 ("user", "wrongpass") rfl).2.2⟩

/-- Claim C2, counterexample: a successful POST to `/cam1/whip?user=x`
answers 201, but the `Location` header carries the request's query string
after the secret, so it is not equal to `/<path>/whip/<secret>`. -/
theorem whip_post_location_cex :
    (onRequest demoEnv demoReqPost).status = some 201 ∧
    (onRequest demoEnv demoReqPost).getHeader "Location" =
      some ["/cam1/whip/22222222-2222-2222-2222-222222222222?user=x"] ∧
    "/cam1/whip/22222222-2222-2222-2222-222222222222?user=x" ≠
      "/cam1/whip/22222222-2222-2222-2222-222222222222" := by
  decide

/-- Claim C2 (amended): a POST to a WHIP/WHEP endpoint whose
`Content-Type` is not `application/sdp` is rejected 400 with no side
effects (in particular no session is created); a POST whose offer the
coordinator accepts is answered 201 with `Content-Type: application/sdp`,
`ETag: *`, `Accept-Patch: application/trickle-ice-sdpfrag`, a `Location`
equal to `/<path>/{whip|whep}/<secret>` with `?<query>` appended when the
request had a nonempty query string, and the SDP answer as body. -/
theorem whip_post_created_response (s : Env) (ctx : HttpRequest) (p kind : String)
    (hmethod : ctx.method = "POST")
    (hm : matchWHIPWHEPNoID ctx.url.path = some (p, kind)) :
    (ctx.contentType ≠ "application/sdp" →
      (onRequest s ctx).status = some 400 ∧ (onRequest s ctx).effects = []) ∧
    (∀ offer sxUuid sxSecret answer links,
      ctx.contentType = "application/sdp" →
      ctx.body = some offer →
      s.newSession (whipPostSessionReq ctx p (kind == "whip") offer) =
        WebRTCNewSessionRes.ok sxUuid sxSecret answer →
      s.generateICEServers = some links →
      (onRequest s ctx).status = some 201 ∧
      (onRequest s ctx).getHeader "Content-Type" = some ["application/sdp"] ∧
      (onRequest s ctx).getHeader "ETag" = some ["*"] ∧
      (onRequest s ctx).getHeader "Accept-Patch" = some ["application/trickle-ice-sdpfrag"] ∧
      (onRequest s ctx).getHeader "Location" =
        some [if ctx.url.rawQuery = "" then ctx.url.path ++ "/" ++ sxSecret.str
              else ctx.url.path ++ "/" ++ sxSecret.str ++ "?" ++ ctx.url.rawQuery] ∧
      (onRequest s ctx).body = answer) := by
  constructor
  · intro hct
    simp [onRequest, hmethod, hm, onWHIPPost, hct]
  · intro offer sxUuid sxSecret answer links hct hb hn hg
    simp [onRequest, hmethod, hm, onWHIPPost, hct, hb, hn, hg, relativeLocation,
      String.append_assoc, String.empty_append]

/-- Claim C2 (amended), witness: a concrete accepted POST with query
string `user=x` is answered 201 with the secret-bearing `Location`. -/
theorem whip_post_created_response_witness :
    matchWHIPWHEPNoID demoReqPost.url.path = some ("cam1", "whip") ∧
    demoEnv.newSession
        (whipPostSessionReq demoReqPost "cam1" ("whip" == "whip") "v=0 demo-offer") =
      WebRTCNewSessionRes.ok demoUUID demoSecret "v=0 demo-answer" ∧
    ((onRequest demoEnv demoReqPost).status = some 201 ∧
      (onRequest demoEnv demoReqPost).getHeader "ETag" = some ["*"] ∧
      (onRequest demoEnv demoReqPost).getHeader "Location" =
        some ["/cam1/whip/22222222-2222-2222-2222-222222222222?user=x"] ∧
      (onRequest demoEnv demoReqPost).body = "v=0 demo-answer") := by
  refine ⟨by decide, rfl, ?_⟩
  have h := (whip_post_created_response demoEnv demoReqPost "cam1" "whip" rfl (by decide)).2
    "v=0 demo-offer" demoUUID demoSecret "v=0 demo-answer"
    ["<stun:stun.example.com>; rel=\"ice-server\""] rfl rfl rfl rfl
  exact ⟨h.1, h.2.2.1, by simpa using h.2.2.2.2.1, h.2.2.2.2.2⟩

/-- Claim C3: a PATCH routed to a WHIP/WHEP session URL (with readable
body) is answered 204 exactly when the secret parses as a UUID, the
`Content-Type` is `application/trickle-ice-sdpfrag`, the body unmarshals
into ICE candidates and the coordinator accepts them for that secret;
otherwise — in particular for an unknown secret — it is answered 400. -/
theorem whip_patch_status (s : Env) (ctx : HttpRequest) (p kind sec b : String)
    (hno : matchWHIPWHEPNoID ctx.url.path = none)
    (hm : matchWHIPWHEPWithID ctx.url.path = some (p, kind, sec))
    (hmethod : ctx.method = "PATCH") (hb : ctx.body = some b) :
    (patchAccepted s ctx sec b → (onRequest s ctx).status = some 204) ∧
    (¬ patchAccepted s ctx sec b → (onRequest s ctx).status = some 400) := by
  constructor
  · rintro ⟨secret, candidates, hp, hct, hi, ha⟩
    simp [onRequest, hmethod, hno, hm, onWHIPPatch, hp, hct, hi, ha, hb]
  · intro hna
    cases hp : s.parseUUID sec with
    | none => simp [onRequest, hmethod, hno, hm, onWHIPPatch, hp]
    | some secret =>
      by_cases hct : ctx.contentType = "application/trickle-ice-sdpfrag"
      · cases hi : s.iceFragmentUnmarshal b with
        | none => simp [onRequest, hmethod, hno, hm, onWHIPPatch, hp, hct, hi, hb]
        | some candidates =>
          cases ha : s.addSessionCandidates secret candidates with
          | false => simp [onRequest, hmethod, hno, hm, onWHIPPatch, hp, hct, hi, hb, ha]
          | true => exact absurd ⟨secret, candidates, hp, hct, hi, ha⟩ hna
      · simp [onRequest, hmethod, hno, hm, onWHIPPatch, hp, hct]

/-- Claim C3, witness: a concrete well-formed PATCH with the known secret
is answered 204. -/
theorem whip_patch_status_witness :
    matchWHIPWHEPWithID demoReqPatch.url.path =
      some ("cam1", "whip", "22222222-2222-2222-2222-222222222222") ∧
    patchAccepted demoEnv demoReqPatch "22222222-2222-2222-2222-222222222222"
      "demo-fragment" ∧
    (onRequest demoEnv demoReqPatch).status = some 204 := by
  refine ⟨by decide, ⟨demoSecret, ["candidate 1 UDP"], by decide, rfl, by decide, rfl⟩, ?_⟩
  exact (whip_patch_status demoEnv demoReqPatch "cam1" "whip"
      "22222222-2222-2222-2222-222222222222" "demo-fragment" (by decide) (by decide)
      rfl rfl).1
    ⟨demoSecret, ["candidate 1 UDP"], by decide, rfl, by decide, rfl⟩

/-- Claim C6: a DELETE routed to a WHIP/WHEP session URL is answered 200
when the secret parses as a UUID and the coordinator tears the matching
session down (the teardown call is in the effect trace); when the secret
is malformed or the coordinator reports an error the answer is 400. -/
theorem whip_delete_status (s : Env) (ctx : HttpRequest) (p kind sec : String)
    (hno : matchWHIPWHEPNoID ctx.url.path = none)
    (hm : matchWHIPWHEPWithID ctx.url.path = some (p, kind, sec))
    (hmethod : ctx.method = "DELETE") :
    (∀ secret, s.parseUUID sec = some secret → s.deleteSession secret = true →
      (onRequest s ctx).status = some 200 ∧
      Effect.deleteSessionCall secret ∈ (onRequest s ctx).effects) ∧
    (s.parseUUID sec = none → (onRequest s ctx).status = some 400) ∧
    (∀ secret, s.parseUUID sec = some secret → s.deleteSession secret = false →
      (onRequest s ctx).status = some 400) := by
  refine ⟨?_, ?_, ?_⟩
  · intro secret hp hd
    simp [onRequest, hmethod, hno, hm, onWHIPDelete, hp, hd]
  · intro hp
    simp [onRequest, hmethod, hno, hm, onWHIPDelete, hp]
  · intro secret hp hd
    simp [onRequest, hmethod, hno, hm, onWHIPDelete, hp, hd]

/-- Claim C6, witness: a concrete DELETE with the known secret is
answered 200 and the teardown call is traced. -/
theorem whip_delete_status_witness :
    demoEnv.parseUUID "22222222-2222-2222-2222-222222222222" = some demoSecret ∧
    demoEnv.deleteSession demoSecret = true ∧
    ((onRequest demoEnv demoReqDelete).status = some 200 ∧
      Effect.deleteSessionCall demoSecret ∈ (onRequest demoEnv demoReqDelete).effects) := by
  refine ⟨by decide, rfl, ?_⟩
  exact (whip_delete_status demoEnv demoReqDelete "cam1" "whep"
      "22222222-2222-2222-2222-222222222222" (by decide) (by decide) rfl).1
    demoSecret (by decide) rfl

/-- Claim C9: a GET whose URL path is not a WHIP/WHEP endpoint, is at
least 3 characters long, is not `/favicon.ico`, does not end in
`/publish` and does not end with `/` is answered 301 with a `Location`
equal to the same path with `/` appended, the query string preserved, and
no page body. -/
theorem static_redirect_slash (s : Env) (ctx : HttpRequest)
    (hmethod : ctx.method = "GET")
    (hno : matchWHIPWHEPNoID ctx.url.path = none)
    (hwid : matchWHIPWHEPWithID ctx.url.path = none)
    (hfav : ctx.url.path ≠ "/favicon.ico")
    (hlen : 3 ≤ strLength ctx.url.path)
    (hpub : strEndsWith ctx.url.path "/publish" = false)
    (hslash : strBack ctx.url.path ≠ '/') :
    (onRequest s ctx).status = some 301 ∧
    (onRequest s ctx).getHeader "Location" =
      some [if ctx.url.rawQuery = "" then ctx.url.path ++ "/"
            else ctx.url.path ++ "/" ++ "?" ++ ctx.url.rawQuery] ∧
    (onRequest s ctx).body = "" := by
  simp [onRequest, hmethod, hno, hwid, hfav, hlen, hpub, hslash, relativeLocation,
    String.append_assoc, ite_not]

/-- Claim C9, witness: a concrete `GET /static/page?x=1` is redirected to
`/static/page/?x=1` with status 301 and no body. -/
theorem static_redirect_slash_witness :
    matchWHIPWHEPNoID demoReqGetStatic.url.path = none ∧
    strBack demoReqGetStatic.url.path ≠ '/' ∧
    ((onRequest demoEnv demoReqGetStatic).status = some 301 ∧
      (onRequest demoEnv demoReqGetStatic).getHeader "Location" =
        some ["/static/page/?x=1"] ∧
      (onRequest demoEnv demoReqGetStatic).body = "") := by
  refine ⟨by decide, by decide, ?_⟩
  have h := static_redirect_slash demoEnv demoReqGetStatic rfl (by decide) (by decide)
    (by decide) (by decide) (by decide) (by decide)
  exact ⟨h.1, by simpa using h.2.1, h.2.2⟩

theorem pageGate_of (s : Env) (ctx : HttpRequest) (name : String) (publish : Bool)
    (hred : onRequest s ctx = onPage s ctx name publish
      ((Response.setHeader
          { status := none, headers := [], body := "", delaySec := 0, effects := [] }
          "Access-Control-Allow-Origin" s.allowOrigin).setHeader
        "Access-Control-Allow-Credentials" "true")) :
    pageGate s ctx name publish := by
  unfold pageGate
  refine ⟨?_, ?_, ?_⟩
  · intro hauth
    have hck := fun w => checkAuth_ok s ctx name publish w hauth
    rw [hred]
    cases publish <;> simp [onPage, hck, String.empty_append]
  · intro msg hauth
    cases hb : ctx.basicAuth with
    | none =>
      have hck := fun w => checkAuth_errAuth_noCreds s ctx name publish w msg hb hauth
      rw [hred]
      simp [onPage, hck, hb]
    | some cred =>
      have hck := fun w => checkAuth_errAuth_creds s ctx name publish w msg cred hb hauth
      rw [hred]
      simp [onPage, hck, hb]
  · intro msg hauth
    have hck := fun w => checkAuth_errOther s ctx name publish w msg hauth
    rw [hred]
    simp [onPage, hck]

/-- Claim C10: the embedded pages at `GET /<path>/publish` and
`GET /<path>/` are gated by the same authentication check as the WHIP
endpoints: on success they are served with 200, `Content-Type:
text/html` and `Cache-Control: max-age=3600` after exactly one auth
check; on auth failure the answer is 401 (challenge exactly when
credentials were missing) and on any other error 404, with no page body
written. -/
theorem page_auth_gate (s : Env) (ctx : HttpRequest)
    (hmethod : ctx.method = "GET")
    (hno : matchWHIPWHEPNoID ctx.url.path = none)
    (hwid : matchWHIPWHEPWithID ctx.url.path = none)
    (hfav : ctx.url.path ≠ "/favicon.ico")
    (hlen : 3 ≤ strLength ctx.url.path) :
    (strEndsWith ctx.url.path "/publish" = true →
      pageGate s ctx (strDropRight (strDrop ctx.url.path 1) 8) true) ∧
    (strEndsWith ctx.url.path "/publish" = false → strBack ctx.url.path = '/' →
      pageGate s ctx (strDropRight (strDrop ctx.url.path 1) 1) false) := by
  constructor
  · intro hpub
    refine pageGate_of s ctx _ true ?_
    simp [onRequest, hmethod, hno, hwid, hfav, hlen, hpub]
  · intro hpub hsl
    refine pageGate_of s ctx _ false ?_
    simp [onRequest, hmethod, hno, hwid, hfav, hlen, hpub, hsl]

/-- Claim C10, witness: a concrete authorized `GET /cam1/publish` serves
the embedded publish page with 200 and the caching headers. -/
theorem page_auth_gate_witness :
    strEndsWith demoReqGetPublish.url.path "/publish" = true ∧
    demoEnv.getConfForPath
        (outsideSessionAccessRequest demoReqGetPublish "cam1" true) = PathConfResult.ok ∧
    ((onRequest demoEnv demoReqGetPublish).status = some 200 ∧
      (onRequest demoEnv demoReqGetPublish).getHeader "Content-Type" = some ["text/html"] ∧
      (onRequest demoEnv demoReqGetPublish).getHeader "Cache-Control" =
        some ["max-age=3600"] ∧
      (onRequest demoEnv demoReqGetPublish).body = demoEnv.publishIndex) := by
  refine ⟨by decide, rfl, ?_⟩
  have h := ((page_auth_gate demoEnv demoReqGetPublish rfl (by decide) (by decide) (by decide)
      (by decide)).1 (by decide)).1 rfl
  exact ⟨h.1, h.2.1, h.2.2.1, by simpa using h.2.2.2.1⟩
